import Mathlib

/-!
# Contacts-management backend: shallow embedding

Embedding of the contacts/auth backend (`project_root/app`): the SQLAlchemy
models (`models.py`), the repository functions (`crud.py`) and the endpoint
handlers (`main.py`).  The database is modelled as explicit state (lists of
user and contact rows) threaded through each operation; an HTTP error is an
`HTTPException` value (status code, detail, headers) mirroring FastAPI's.

Parts of the repository are referenced from `main.py` but their defining
module is not present in the source tree (the `auth` module, the richer
`crud` revision providing `set_verification_token` / `verify_user`, and the
verification fields of the `User` model).  Those are modelled from the
specification and are marked `Modelled from the spec:` in their doc comments.
-/

namespace ContactsApp

/-- A calendar date (the date part of the `DateTime` column used for
`Contact.birthday`). -/
structure Date where
  year : Nat
  month : Nat
  day : Nat
deriving DecidableEq, Repr

/-- A contact row, from `models.Contact` (`models.py`): integer primary key,
`name`, `email`, optional `birthday`, and the `owner_id` foreign key to
`users.id`. -/
structure Contact where
  id : Nat
  name : String
  email : String
  birthday : Option Date
  owner_id : Nat
deriving DecidableEq, Repr

/-- A user row, from `models.User` (`models.py`) together with the
verification state of the spec's data model.  `is_verified` and
`verification_token` — Modelled from the spec: the `models.py` revision in
the tree carries only an `is_active` column (and fails to import `Boolean`);
the spec's User has an activation flag `is_verified` (default false) and an
optional single-use `verification_token` (null when unset or consumed). -/
structure User where
  id : Nat
  email : String
  hashed_password : String
  is_verified : Bool
  verification_token : Option String
deriving DecidableEq, Repr

/-- The record store: the `users` and `contacts` tables, in insertion
order. -/
structure DB where
  users : List User
  contacts : List Contact
deriving DecidableEq, Repr

/-- `schemas.UserCreate`: registration payload. -/
structure UserCreate where
  email : String
  password : String
deriving DecidableEq, Repr

/-- `schemas.ContactCreate` (= `ContactBase`): `name`, `email`, optional
`birthday`.  There is no owner field. -/
structure ContactCreate where
  name : String
  email : String
  birthday : Option Date
deriving DecidableEq, Repr

/-- `schemas.ContactUpdate` (= `ContactBase`): the parsed update body.
`name` and `email` are required; `birthday` is `Optional` with default
`None`. -/
structure ContactUpdate where
  name : String
  email : String
  birthday : Option Date
deriving DecidableEq, Repr

/-- The raw JSON body of a PUT `/contacts/{id}` request, before pydantic
validation: `birthday` may be absent from the payload (outer `none`) or
present (possibly as an explicit null). -/
structure UpdatePayload where
  name : String
  email : String
  birthday : Option (Option Date)
deriving DecidableEq, Repr

/-- Pydantic validation of an update body against `ContactUpdate`: an absent
`birthday` field takes the schema default `None`; `contact.dict()` then
contains all three keys. -/
def parseContactUpdate (p : UpdatePayload) : ContactUpdate :=
  { name := p.name, email := p.email, birthday := p.birthday.getD none }

/-- FastAPI's `HTTPException`: status code, detail string, extra response
headers. -/
structure HTTPException where
  status_code : Nat
  detail : String
  headers : List (String × String)
deriving DecidableEq, Repr

/-- The 404 raised by the contact-by-id endpoints (`main.py`). -/
def contactNotFound : HTTPException :=
  { status_code := 404, detail := "Contact not found", headers := [] }

/-- The single `credentials_exception` of `get_current_user` (`main.py`
lines 60–64): 401, fixed detail, `WWW-Authenticate: Bearer` header. -/
def credentialsException : HTTPException :=
  { status_code := 401, detail := "Could not validate credentials",
    headers := [("WWW-Authenticate", "Bearer")] }

/-- The 409 raised by `create_user` on a duplicate email (`main.py` line
130). -/
def emailRegistered : HTTPException :=
  { status_code := 409, detail := "Email already registered", headers := [] }

/-- The 400 raised by `verify_email` on an unknown/consumed token
(`main.py` line 153). -/
def invalidVerification : HTTPException :=
  { status_code := 400, detail := "Invalid verification token", headers := [] }

/-- The generic 500 surfaced when an endpoint raises an unhandled Python
exception. -/
def internalServerError : HTTPException :=
  { status_code := 500, detail := "Internal Server Error", headers := [] }

/-! ## Repository functions (`crud.py`) -/

/-- `crud.get_user_by_email`: first user row whose email equals the
argument. -/
def get_user_by_email (db : DB) (email : String) : Option User :=
  db.users.find? (fun u => u.email == email)

/-- Autoincrement primary key for the `users` table: one more than the
largest id in use. -/
def nextUserId (db : DB) : Nat :=
  db.users.foldr (fun u m => max u.id m) 0 + 1

/-- Autoincrement primary key for the `contacts` table. -/
def nextContactId (db : DB) : Nat :=
  db.contacts.foldr (fun c m => max c.id m) 0 + 1

/-- `crud.create_user`: inserts a row with the given email and (already
hashed) password; `is_verified` defaults to false and no verification token
is set yet.  Returns the refreshed row. -/
def crud_create_user (db : DB) (user : UserCreate) : DB × User :=
  let u : User :=
    { id := nextUserId db, email := user.email, hashed_password := user.password,
      is_verified := false, verification_token := none }
  ({ db with users := db.users ++ [u] }, u)

/-- `crud.get_contacts`: the user's contacts in insertion order, with
offset/limit paging. -/
def get_contacts (db : DB) (user_id : Nat) (skip : Nat) (limit : Nat) : List Contact :=
  ((db.contacts.filter (fun c => c.owner_id == user_id)).drop skip).take limit

/-- `crud.create_contact`: inserts `models.Contact(**contact.dict(),
owner_id=user_id)` — every field of the payload plus the caller-supplied
owner id. -/
def crud_create_contact (db : DB) (contact : ContactCreate) (user_id : Nat) : DB × Contact :=
  let c : Contact :=
    { id := nextContactId db, name := contact.name, email := contact.email,
      birthday := contact.birthday, owner_id := user_id }
  ({ db with contacts := db.contacts ++ [c] }, c)

/-- `crud.get_contact`: first contact row with the given id (no owner
filter — the caller must check ownership). -/
def get_contact (db : DB) (contact_id : Nat) : Option Contact :=
  db.contacts.find? (fun c => c.id == contact_id)

/-- `crud.update_contact`: if the contact exists, `setattr` every key of
`contact.dict()` — i.e. `name`, `email` and `birthday` — onto the row, then
commit.  Returns the updated state and the refreshed row (`none` when the id
is unknown). -/
def crud_update_contact (db : DB) (contact_id : Nat) (contact : ContactUpdate) :
    DB × Option Contact :=
  match get_contact db contact_id with
  | none => (db, none)
  | some old =>
    let c : Contact :=
      { old with name := contact.name, email := contact.email, birthday := contact.birthday }
    ({ db with contacts := db.contacts.map (fun x => if x.id == contact_id then c else x) },
      some c)

/-- `crud.delete_contact`: if the contact exists, delete the row and return
it. -/
def crud_delete_contact (db : DB) (contact_id : Nat) : DB × Option Contact :=
  match get_contact db contact_id with
  | none => (db, none)
  | some c =>
    ({ db with contacts := db.contacts.filter (fun x => !(x.id == contact_id)) }, some c)

/-- ASCII lower-casing of a character (A–Z shifted to a–z). -/
def lowerChar (c : Char) : Char :=
  if 65 ≤ c.toNat ∧ c.toNat ≤ 90 then Char.ofNat (c.toNat + 32) else c

/-- ASCII lower-casing of a string, as a character list. -/
def lowerStr (s : String) : List Char :=
  s.data.map lowerChar

/-- `pat` matches at the head of the second list. -/
def matchHere : List Char → List Char → Bool
  | [], _ => true
  | _ :: _, [] => false
  | a :: as, b :: bs => a == b && matchHere as bs

/-- `pat` occurs as a contiguous sublist. -/
def containsSub (pat : List Char) : List Char → Bool
  | [] => pat.isEmpty
  | b :: bs => matchHere pat (b :: bs) || containsSub pat bs

/-- Case-insensitive `LIKE '%query%'` substring match, as SQLAlchemy's
`Contact.name.contains(query)` evaluates on the SQLite backend used by the
repository's tests (ASCII case-folding; the query is taken as a plain
substring, wildcard metacharacters are not modelled). -/
def likeContains (s query : String) : Bool :=
  containsSub (lowerStr query) (lowerStr s)

/-- `crud.search_contacts`: the user's contacts whose **name** contains the
query (`models.Contact.name.contains(query)`); the email column is not
consulted. -/
def search_contacts (db : DB) (query : String) (user_id : Nat) : List Contact :=
  db.contacts.filter (fun c => c.owner_id == user_id && likeContains c.name query)

/-- Ascending order on dates (year, month, day lexicographically). -/
def dateLeb (a b : Date) : Bool :=
  a.year < b.year ||
    (a.year == b.year && (a.month < b.month || (a.month == b.month && a.day ≤ b.day)))

/-- SQL ascending order on a nullable date column: NULLs first. -/
def optDateLeb : Option Date → Option Date → Bool
  | none, _ => true
  | some _, none => false
  | some a, some b => dateLeb a b

/-- Insert a contact into a list sorted ascending by birthday. -/
def insertByBirthday (c : Contact) : List Contact → List Contact
  | [] => [c]
  | x :: xs =>
    if optDateLeb c.birthday x.birthday then c :: x :: xs else x :: insertByBirthday c xs

/-- `ORDER BY contacts.birthday` (ascending, stable). -/
def orderByBirthday : List Contact → List Contact
  | [] => []
  | x :: xs => insertByBirthday x (orderByBirthday xs)

/-- `crud.get_upcoming_birthdays` as it stands in `crud.py` (lines 137–148):
**all** of the user's contacts, ordered by the raw `birthday` column — no
window filtering and no anniversary computation. -/
def get_upcoming_birthdays (db : DB) (user_id : Nat) : List Contact :=
  orderByBirthday (db.contacts.filter (fun c => c.owner_id == user_id))

/-- Days in each month of a (non-leap) year, for the day-of-year arithmetic
the spec describes. -/
def monthLen : Nat → Nat
  | 1 => 31 | 2 => 28 | 3 => 31 | 4 => 30 | 5 => 31 | 6 => 30
  | 7 => 31 | 8 => 31 | 9 => 30 | 10 => 31 | 11 => 30 | 12 => 31
  | _ => 0

/-- Ordinal day within the year (1-based; 365-day year). -/
def dayOfYear (d : Date) : Nat :=
  (List.range d.month).foldl (fun acc m => acc + monthLen m) 0 + d.day

/-- Modelled from the spec: days from `now` until the next anniversary of
`bday` ("compute each contact's birthday anniversary date on-or-after now …
ordered by the birthday's day-of-year proximity to the current date,
wrapping year boundary"); day-of-year arithmetic over a 365-day year, 0 when
the anniversary is today. -/
def daysUntilAnniversary (now bday : Date) : Nat :=
  (dayOfYear bday + 365 - dayOfYear now) % 365

/-! ## Token service

Modelled from the spec: the `auth` module (`get_password_hash`,
`create_access_token`, `ACCESS_TOKEN_EXPIRE_MINUTES`) and the `jose`
JWT library are imported by `main.py` but the `auth` module is not in the
source tree.  A bearer token is either an undecodable blob or a signed
payload `{sub, exp}`; `jwt.decode` succeeds exactly when the signature
matches the server secret and the expiry instant has not been reached
(current time strictly before `exp`). -/

/-- A bearer credential as presented by a client: either a string that is
not a decodable JWT, or a signed payload carrying an optional `sub` claim,
an expiry instant, and the key it was signed with. -/
inductive BearerToken where
  | malformed (raw : String)
  | signed (sub : Option String) (exp : Int) (key : String)
deriving DecidableEq, Repr

/-- The decoded claims relevant to `get_current_user`: `payload.get("sub")`. -/
structure JWTPayload where
  sub : Option String
deriving DecidableEq, Repr

/-- Modelled from the spec: `jwt.decode(token, SECRET_KEY, [ALGORITHM])` at
time `now` — `none` on bad signature, tampering, malformed structure or
expiry (all raised as `JWTError` and caught alike in `main.py`); a token is
unexpired while `now < exp`. -/
def jwt_decode (secret : String) (now : Int) : BearerToken → Option JWTPayload
  | .malformed _ => none
  | .signed sub exp key =>
    if key == secret && now < exp then some { sub := sub } else none

/-- Modelled from the spec: `auth.create_access_token({"sub": email},
expires_delta)` issued at `now` — payload `{sub: email, exp: now + ttl}`
signed with the server secret. -/
def create_access_token (secret : String) (now ttl : Int) (email : String) : BearerToken :=
  .signed (some email) (now + ttl) secret

/-! ## Endpoint handlers (`main.py`) -/

/-- `get_current_user` (`main.py` lines 49–75): decode the bearer token,
extract `sub`, look the email up; every failure raises the one
`credentials_exception`. -/
def get_current_user (secret : String) (now : Int) (db : DB) (token : BearerToken) :
    Except HTTPException User :=
  match jwt_decode secret now token with
  | none => .error credentialsException
  | some payload =>
    match payload.sub with
    | none => .error credentialsException
    | some email =>
      match get_user_by_email db email with
      | none => .error credentialsException
      | some u => .ok u

/-- `read_contact` (`main.py` lines 200–216): 404 when the id is unknown or
the row is not owned by the caller. -/
def read_contact (db : DB) (current_user : User) (contact_id : Nat) :
    Except HTTPException Contact :=
  match get_contact db contact_id with
  | none => .error contactNotFound
  | some c => if c.owner_id ≠ current_user.id then .error contactNotFound else .ok c

/-- `update_contact` (`main.py` lines 219–236): same ownership check, then
`crud.update_contact`.  The success value carries the post-state and the
row `crud.update_contact` returned. -/
def update_contact (db : DB) (current_user : User) (contact_id : Nat) (p : UpdatePayload) :
    Except HTTPException (DB × Option Contact) :=
  match get_contact db contact_id with
  | none => .error contactNotFound
  | some c =>
    if c.owner_id ≠ current_user.id then .error contactNotFound
    else .ok (crud_update_contact db contact_id (parseContactUpdate p))

/-- `delete_contact` (`main.py` lines 239–255): same ownership check, then
`crud.delete_contact`. -/
def delete_contact (db : DB) (current_user : User) (contact_id : Nat) :
    Except HTTPException (DB × Option Contact) :=
  match get_contact db contact_id with
  | none => .error contactNotFound
  | some c =>
    if c.owner_id ≠ current_user.id then .error contactNotFound
    else .ok (crud_delete_contact db contact_id)

/-- The database state after a PUT `/contacts/{id}` request: a raised
`HTTPException` aborts the handler before any write, leaving the store as it
was. -/
def updateRun (db : DB) (current_user : User) (contact_id : Nat) (p : UpdatePayload) : DB :=
  match update_contact db current_user contact_id p with
  | .error _ => db
  | .ok (db1, _) => db1

/-- The database state after a DELETE `/contacts/{id}` request. -/
def deleteRun (db : DB) (current_user : User) (contact_id : Nat) : DB :=
  match delete_contact db current_user contact_id with
  | .error _ => db
  | .ok (db1, _) => db1

/-- `create_contact` (`main.py` lines 98–112): `crud.create_contact` with
`user_id = current_user.id`; the payload carries no owner field. -/
def create_contact (db : DB) (current_user : User) (contact : ContactCreate) : DB × Contact :=
  crud_create_contact db contact current_user.id

/-- Modelled from the spec: `crud.set_verification_token(db, user_id)` of
the Identity Store (`set_verification_token(user_id, token)`) — mints an
opaque token (passed in here as `tok`, standing for the random draw), stores
it on the user row, and returns it. -/
def set_verification_token (tok : String) (db : DB) (user_id : Nat) : DB × String :=
  ({ db with
      users := db.users.map (fun u =>
        if u.id == user_id then { u with verification_token := some tok } else u) },
    tok)

/-- `create_user` (`main.py` lines 115–136): reject a known email with 409;
otherwise hash the password (`hashF` stands for `auth.get_password_hash`),
insert the user, store a fresh verification token — and then line 135
evaluates the unbound name `background_tasks` (the parameter is listed in
the docstring but missing from the signature), so the handler raises
`NameError` after the inserts have been committed and the request surfaces
as a 500 instead of returning the created user. -/
def create_user (hashF : String → String) (tok : String) (db : DB) (reg : UserCreate) :
    DB × Except HTTPException User :=
  match get_user_by_email db reg.email with
  | some _ => (db, .error emailRegistered)
  | none =>
    let hashed := hashF reg.password
    let res := crud_create_user db { email := reg.email, password := hashed }
    let res2 := set_verification_token tok res.1 res.2.id
    (res2.1, .error internalServerError)

/-- Modelled from the spec: `crud.verify_user(db, token)` — look the token
up in the Identity Store (`find_by_verification_token`); if a user holds it,
atomically mark that user verified and clear the token
(`mark_verified`), returning the refreshed row; otherwise `None`. -/
def verify_user (db : DB) (tok : String) : DB × Option User :=
  match db.users.find? (fun u => u.verification_token == some tok) with
  | none => (db, none)
  | some u =>
    let u2 : User := { u with is_verified := true, verification_token := none }
    ({ db with users := db.users.map (fun x => if x.id == u.id then u2 else x) }, some u2)

/-- `verify_email` (`main.py` lines 139–154): 400 when `crud.verify_user`
finds no user for the token, success message otherwise.  The result carries
the post-state (unchanged on failure). -/
def verify_email (db : DB) (tok : String) : DB × Except HTTPException String :=
  match verify_user db tok with
  | (db1, some _) => (db1, .ok "Email verified successfully")
  | (_, none) => (db, .error invalidVerification)

/-! ## Concrete stores and requests used to exercise the model -/

/-- Owner of the probed contact. -/
def c1_userA : User := ⟨1, "a@x.com", "HA", false, none⟩

/-- A different authenticated user. -/
def c1_userB : User := ⟨2, "b@x.com", "HB", false, none⟩

/-- A contact owned by `c1_userA`. -/
def c1_contact : Contact := ⟨10, "Carl", "carl@x.com", some ⟨1991, 4, 2⟩, 1⟩

/-- Store with two users and one contact owned by user 1. -/
def c1_db : DB := ⟨[c1_userA, c1_userB], [c1_contact]⟩

/-- An arbitrary update body for the cross-user PUT attempt. -/
def c1_payload : UpdatePayload := ⟨"X", "x@x.com", some (some ⟨1980, 1, 1⟩)⟩

/-- The owner performing the partial update. -/
def c2_user : User := ⟨1, "owner@x.com", "H", false, none⟩

/-- A contact that currently has a birthday on record. -/
def c2_contact : Contact := ⟨1, "Ann", "ann@x.com", some ⟨1990, 5, 5⟩, 1⟩

/-- Store holding `c2_contact`. -/
def c2_db : DB := ⟨[c2_user], [c2_contact]⟩

/-- An update body that supplies name and email but **omits** the birthday
field. -/
def c2_payload : UpdatePayload := ⟨"Ann", "ann@x.com", none⟩

/-- A contact whose birthday (Feb 15) has already passed when "now" is
March 1. -/
def c3_contact : Contact := ⟨1, "Feb Fifteen", "feb@x.com", some ⟨1990, 2, 15⟩, 1⟩

/-- Store holding only `c3_contact`, owned by user 1. -/
def c3_db : DB := ⟨[], [c3_contact]⟩

/-- "Now" = March 1 (of 2024, say). -/
def c3_now : Date := ⟨2024, 3, 1⟩

/-- Stand-in for `auth.get_password_hash`. -/
def c4_hash (p : String) : String := "bcrypt$" ++ p

/-- An already-registered user holding `a@x.com`. -/
def c4_user : User := ⟨1, "a@x.com", "bcrypt$pw1", true, none⟩

/-- Store where `a@x.com` is taken. -/
def c4_db : DB := ⟨[c4_user], []⟩

/-- A registration request for the already-taken email. -/
def c4_reg : UserCreate := ⟨"a@x.com", "pw2"⟩

/-- The empty store. -/
def emptyDB : DB := ⟨[], []⟩

/-- A user awaiting verification with token `"tok123"`. -/
def c5_user : User := ⟨1, "v@x.com", "H", false, some "tok123"⟩

/-- Store before verification. -/
def c5_db0 : DB := ⟨[c5_user], []⟩

/-- Store after the first (successful) verification: flag set, token
cleared. -/
def c5_db1 : DB := ⟨[⟨1, "v@x.com", "H", true, none⟩], []⟩

/-- The subject of the issued access token. -/
def c6_user : User := ⟨1, "a@x", "H", false, none⟩

/-- Store holding the token's subject. -/
def c6_db : DB := ⟨[c6_user], []⟩

/-- A contact whose **email** contains "alice" but whose name does not. -/
def c7_contact : Contact := ⟨1, "Bob", "Alice@Example.com", none, 1⟩

/-- Store holding `c7_contact`, owned by user 1. -/
def c7_db : DB := ⟨[], [c7_contact]⟩

/-- A bearer credential that is not a decodable JWT. -/
def c8_tokBad : BearerToken := .malformed "garbage"

/-- A validly signed, unexpired token whose subject matches no stored
user. -/
def c8_tokOk : BearerToken := .signed (some "ghost@x.com") 100 "s"

/-- Stand-in for `auth.get_password_hash`. -/
def c9_hash (p : String) : String := "bcrypt$" ++ p

/-- A valid registration request for a fresh email. -/
def c9_reg : UserCreate := ⟨"b@y.com", "pw"⟩

/-! ## Theorems -/

/-- C10: for every authenticated contact-creation request, the stored
contact's owner is the authenticated user — the creation schema carries no
owner field, so the payload cannot set or alter it: whatever the payload,
the created row has `owner_id = current_user.id` and is inserted into the
store with that owner. -/
theorem c10_created_contact_owned_by_caller (db : DB) (u : User) (payload : ContactCreate) :
    (create_contact db u payload).2.owner_id = u.id ∧
    (create_contact db u payload).2 ∈ (create_contact db u payload).1.contacts := by
  constructor
  · rfl
  · simp [create_contact, crud_create_contact]

/-- C1: a GET, PUT or DELETE on a contact id resolves to `NotFound` (404)
whenever the row is owned by a user other than the caller, or no row with
that id exists; in both cases the store is left unchanged. -/
theorem c1_cross_user_access_is_not_found (db : DB) (A B : User) (cid : Nat)
    (p : UpdatePayload) (hne : B.id ≠ A.id)
    (hc : (∃ c, get_contact db cid = some c ∧ c.owner_id = A.id) ∨ get_contact db cid = none) :
    read_contact db B cid = .error contactNotFound ∧
    update_contact db B cid p = .error contactNotFound ∧
    delete_contact db B cid = .error contactNotFound ∧
    updateRun db B cid p = db ∧
    deleteRun db B cid = db := by
  rcases hc with ⟨c, hfind, hown⟩ | hnone
  · have hno : c.owner_id ≠ B.id := by rw [hown]; exact fun h => hne h.symm
    have hr : read_contact db B cid = .error contactNotFound := by
      simp [read_contact, hfind, hno]
    have hu : update_contact db B cid p = .error contactNotFound := by
      simp [update_contact, hfind, hno]
    have hd : delete_contact db B cid = .error contactNotFound := by
      simp [delete_contact, hfind, hno]
    exact ⟨hr, hu, hd, by simp [updateRun, hu], by simp [deleteRun, hd]⟩
  · have hr : read_contact db B cid = .error contactNotFound := by
      simp [read_contact, hnone]
    have hu : update_contact db B cid p = .error contactNotFound := by
      simp [update_contact, hnone]
    have hd : delete_contact db B cid = .error contactNotFound := by
      simp [delete_contact, hnone]
    exact ⟨hr, hu, hd, by simp [updateRun, hu], by simp [deleteRun, hd]⟩

/-- C1 witness: user 2 probing contact 10 (owned by user 1) in the concrete
store gets 404 on all three verbs and the store is untouched. -/
theorem c1_cross_user_access_is_not_found_witness :
    read_contact c1_db c1_userB 10 = .error contactNotFound ∧
    update_contact c1_db c1_userB 10 c1_payload = .error contactNotFound ∧
    delete_contact c1_db c1_userB 10 = .error contactNotFound ∧
    updateRun c1_db c1_userB 10 c1_payload = c1_db ∧
    deleteRun c1_db c1_userB 10 = c1_db :=
  c1_cross_user_access_is_not_found c1_db c1_userA c1_userB 10 c1_payload (by decide)
    (Or.inl ⟨c1_contact, by decide, by decide⟩)

/-- C3: `crud.get_upcoming_birthdays` as written performs no window
filtering — with "now" = March 1, the user's contact whose birthday is
Feb 15 is returned even though its next anniversary is 351 days away, far
outside the 7-day lookahead the claim requires. -/
theorem c3_stub_returns_contact_outside_window :
    get_upcoming_birthdays c3_db 1 = [c3_contact] ∧
    daysUntilAnniversary c3_now ⟨1990, 2, 15⟩ = 351 ∧
    ¬ daysUntilAnniversary c3_now ⟨1990, 2, 15⟩ ≤ 7 := by
  refine ⟨by decide, by decide, by decide⟩

/-- C4: a duplicate registration is indeed rejected with 409 and leaves the
store unchanged, but a registration with a **fresh** email does not succeed:
after committing the user, `main.py` line 135 evaluates the unbound name
`background_tasks` and the request surfaces as a 500 server error instead of
the created user. -/
theorem c4_fresh_registration_errors_after_commit :
    create_user c4_hash "tok4" c4_db c4_reg = (c4_db, .error emailRegistered) ∧
    (create_user c4_hash "tok4" emptyDB c4_reg).2 = .error internalServerError ∧
    ((create_user c4_hash "tok4" emptyDB c4_reg).1.users.map User.email) = ["a@x.com"] := by
  refine ⟨rfl, rfl, by decide⟩

/-- C9: a valid registration does persist the user unverified with a stored
verification token, but no user record is returned — the handler dies on the
unbound name `background_tasks` (`main.py` line 135) and the response is a
500 error rather than the created user with `is_verified = false`. -/
theorem c9_user_persisted_unverified_but_not_returned :
    ((create_user c9_hash "tok9" emptyDB c9_reg).1.users.map
        (fun u => (u.email, u.is_verified, u.verification_token)))
      = [("b@y.com", false, some "tok9")] ∧
    (create_user c9_hash "tok9" emptyDB c9_reg).2 = .error internalServerError := by
  refine ⟨by decide, rfl⟩

/-- C2 counterexample: contact 1 has birthday 1990-05-05 on record; its
owner sends an update that supplies name and email but omits the birthday
field; afterwards the stored birthday is `none` — the absent field did
**not** retain its prior value. -/
theorem c2_counterexample_absent_birthday_cleared :
    (get_contact c2_db 1).map Contact.birthday = some (some ⟨1990, 5, 5⟩) ∧
    (get_contact (updateRun c2_db c2_user 1 c2_payload) 1).map Contact.birthday = some none ∧
    (some (⟨1990, 5, 5⟩ : Date) : Option Date) ≠ none := by
  refine ⟨by decide, by decide, by decide⟩

/-- After replacing every row with the target id by the updated row `c`
(which keeps that id), a point lookup returns `c`. -/
theorem find?_id_map_update (l : List Contact) (cid : Nat) (c old : Contact)
    (hfind : l.find? (fun x => x.id == cid) = some old) (hc : c.id = cid) :
    (l.map (fun x => if x.id == cid then c else x)).find? (fun x => x.id == cid) = some c := by
  induction l with
  | nil => simp at hfind
  | cons a t ih =>
    rw [List.map_cons]
    by_cases ha : a.id = cid
    · have he : (if (a.id == cid) = true then c else a) = c := by simp [ha]
      rw [he]
      exact List.find?_cons_of_pos (p := fun x : Contact => x.id == cid) _ (by simp [hc])
    · have hpa : ¬ ((a.id == cid) = true) := by simp [ha]
      have he : (if (a.id == cid) = true then c else a) = a := by simp [ha]
      rw [he, List.find?_cons_of_neg (p := fun x : Contact => x.id == cid) _ hpa]
      rw [List.find?_cons_of_neg (p := fun x : Contact => x.id == cid) _ hpa] at hfind
      exact ih hfind

/-- C2 amended: an update on an existing contact overwrites **all** fields
of the update schema — name, email and birthday — with the payload's values
(`contact.dict()` carries all keys, so an absent birthday becomes the
default `None`, clearing any prior value); only the fields outside the
schema, `id` and `owner_id`, retain their prior values. -/
theorem c2_update_overwrites_all_schema_fields (db : DB) (cid : Nat) (p : UpdatePayload)
    (old : Contact) (h : get_contact db cid = some old) :
    (crud_update_contact db cid (parseContactUpdate p)).2 =
      some { old with name := p.name, email := p.email, birthday := p.birthday.getD none } ∧
    get_contact (crud_update_contact db cid (parseContactUpdate p)).1 cid =
      some { old with name := p.name, email := p.email, birthday := p.birthday.getD none } := by
  have hf : db.contacts.find? (fun x => x.id == cid) = some old := h
  have hid : old.id = cid := by simpa using List.find?_some hf
  constructor
  · simp [crud_update_contact, h, parseContactUpdate]
  · have key := find?_id_map_update db.contacts cid
      { old with name := p.name, email := p.email, birthday := p.birthday.getD none }
      old hf (by simp [hid])
    have hstate : (crud_update_contact db cid (parseContactUpdate p)).1.contacts
        = db.contacts.map (fun x =>
            if x.id == cid then
              { old with name := p.name, email := p.email, birthday := p.birthday.getD none }
            else x) := by
      simp only [crud_update_contact, h, parseContactUpdate]
    show (crud_update_contact db cid (parseContactUpdate p)).1.contacts.find?
        (fun c => c.id == cid) = _
    rw [hstate]
    exact key

/-- C2 amended witness: the concrete owner update on contact 1 returns and
stores the row with the payload's name/email, a cleared birthday, and the
original id and owner. -/
theorem c2_update_overwrites_all_schema_fields_witness :
    (crud_update_contact c2_db 1 (parseContactUpdate c2_payload)).2 =
      some { c2_contact with name := c2_payload.name, email := c2_payload.email,
                             birthday := c2_payload.birthday.getD none } ∧
    get_contact (crud_update_contact c2_db 1 (parseContactUpdate c2_payload)).1 1 =
      some { c2_contact with name := c2_payload.name, email := c2_payload.email,
                             birthday := c2_payload.birthday.getD none } :=
  c2_update_overwrites_all_schema_fields c2_db 1 c2_payload c2_contact (by decide)

/-- C7 counterexample: contact 1 (owner 1) has `"alice"` in its **email**
case-insensitively, yet `search_contacts` returns nothing for the owner's
query `"alice"` — the email field is never searched. -/
theorem c7_counterexample_email_match_not_returned :
    likeContains c7_contact.email "alice" = true ∧
    search_contacts c7_db "alice" 1 = [] := by
  refine ⟨by decide, by decide⟩

/-- C7 amended: the search operation returns exactly the contacts owned by
the requesting user whose **name** contains the query, matched
case-insensitively (ASCII); the email column is not consulted. -/
theorem c7_search_matches_name_only (db : DB) (q : String) (uid : Nat) (c : Contact) :
    c ∈ search_contacts db q uid ↔
      c ∈ db.contacts ∧ c.owner_id = uid ∧ likeContains c.name q = true := by
  simp [search_contacts, List.mem_filter, and_assoc]

/-- C8: a request whose token fails signature/structure validation and a
request whose validly signed token names an email with no stored user
surface the **same** error — the one `credentials_exception` (401, same
detail, same headers) — so the two failures are externally
indistinguishable. -/
theorem c8_auth_failures_indistinguishable (secret : String) (now : Int) (db : DB)
    (tokBad tokOk : BearerToken) (email : String)
    (hbad : jwt_decode secret now tokBad = none ∨
            jwt_decode secret now tokBad = some { sub := none })
    (hok : jwt_decode secret now tokOk = some { sub := some email })
    (hmiss : get_user_by_email db email = none) :
    get_current_user secret now db tokBad = .error credentialsException ∧
    get_current_user secret now db tokOk = .error credentialsException ∧
    get_current_user secret now db tokBad = get_current_user secret now db tokOk := by
  have h1 : get_current_user secret now db tokBad = .error credentialsException := by
    rcases hbad with h | h <;> simp [get_current_user, h]
  have h2 : get_current_user secret now db tokOk = .error credentialsException := by
    simp [get_current_user, hok, hmiss]
  exact ⟨h1, h2, h1.trans h2.symm⟩

/-- C8 witness: an undecodable blob and a well-signed unexpired token for
the unknown subject `ghost@x.com` both yield the identical 401 against the
empty store. -/
theorem c8_auth_failures_indistinguishable_witness :
    get_current_user "s" 0 emptyDB c8_tokBad = .error credentialsException ∧
    get_current_user "s" 0 emptyDB c8_tokOk = .error credentialsException ∧
    get_current_user "s" 0 emptyDB c8_tokBad = get_current_user "s" 0 emptyDB c8_tokOk :=
  c8_auth_failures_indistinguishable "s" 0 emptyDB c8_tokBad c8_tokOk "ghost@x.com"
    (Or.inl rfl) rfl rfl

/-- C6: an access token issued at `t0` with TTL `ttl` for a stored user is
accepted (resolves to that user) at every time strictly before `t0 + ttl`
and rejected with the 401 `credentials_exception` at every time at or after
`t0 + ttl`. -/
theorem c6_token_accepted_iff_before_expiry (secret : String) (db : DB) (email : String)
    (u : User) (t0 ttl t : Int) (hu : get_user_by_email db email = some u) :
    (t < t0 + ttl →
      get_current_user secret t db (create_access_token secret t0 ttl email) = .ok u) ∧
    (t0 + ttl ≤ t →
      get_current_user secret t db (create_access_token secret t0 ttl email)
        = .error credentialsException) := by
  constructor
  · intro ht
    simp [get_current_user, jwt_decode, create_access_token, ht, hu]
  · intro ht
    have hnt : ¬ (t < t0 + ttl) := not_lt.mpr ht
    simp [get_current_user, jwt_decode, create_access_token, hnt]

/-- C6 witness: a token minted at 0 with TTL 1800 for the stored user is
accepted at time 1799 and rejected at time 1800. -/
theorem c6_token_accepted_iff_before_expiry_witness :
    get_current_user "s" 1799 c6_db (create_access_token "s" 0 1800 "a@x") = .ok c6_user ∧
    get_current_user "s" 1800 c6_db (create_access_token "s" 0 1800 "a@x")
      = .error credentialsException :=
  ⟨(c6_token_accepted_iff_before_expiry "s" c6_db "a@x" c6_user 0 1800 1799 (by decide)).1
      (by decide),
   (c6_token_accepted_iff_before_expiry "s" c6_db "a@x" c6_user 0 1800 1800 (by decide)).2
      (by decide)⟩

/-- When no stored user holds the token, `verify_email` rejects it with the
400 error and leaves the store untouched. -/
theorem verify_email_no_holder (db : DB) (tok : String)
    (h : ∀ u ∈ db.users, u.verification_token ≠ some tok) :
    verify_email db tok = (db, .error invalidVerification) := by
  have hf : db.users.find? (fun u => u.verification_token == some tok) = none := by
    rw [List.find?_eq_none]
    intro x hx
    simp [h x hx]
  simp [verify_email, verify_user, hf]

/-- C5: provided each verification token is held by at most one user (the
spec's store invariant), a replay of a token consumed by a successful
verification fails with the 400 `InvalidOrConsumedToken` error and changes
no user state; a token never issued to anyone fails the same way. -/
theorem c5_verification_token_single_use (db : DB) (tok : String)
    (huniq : ∀ x ∈ db.users, ∀ y ∈ db.users,
      x.verification_token = some tok → y.verification_token = some tok → x.id = y.id) :
    (∀ db1 msg, verify_email db tok = (db1, Except.ok msg) →
        verify_email db1 tok = (db1, Except.error invalidVerification)) ∧
    ((∀ u ∈ db.users, u.verification_token ≠ some tok) →
        verify_email db tok = (db, Except.error invalidVerification)) := by
  constructor
  · intro db1 msg hok
    cases hfind : db.users.find? (fun u => u.verification_token == some tok) with
    | none =>
      rw [show verify_email db tok = (db, .error invalidVerification) from by
        simp [verify_email, verify_user, hfind]] at hok
      have h2 : (Except.error invalidVerification : Except HTTPException String)
          = Except.ok msg := congrArg Prod.snd hok
      exact Except.noConfusion h2
    | some u =>
      have hmem : u ∈ db.users := List.mem_of_find?_eq_some hfind
      have htok : u.verification_token = some tok := by
        simpa using List.find?_some hfind
      have heq : verify_email db tok
          = ({ db with users := db.users.map (fun x =>
                if x.id == u.id then
                  { u with is_verified := true, verification_token := none } else x) },
             Except.ok "Email verified successfully") := by
        simp [verify_email, verify_user, hfind]
      rw [heq] at hok
      have hdb1 : ({ db with users := db.users.map (fun x =>
            if x.id == u.id then
              { u with is_verified := true, verification_token := none } else x) } : DB)
          = db1 := congrArg Prod.fst hok
      rw [← hdb1]
      refine verify_email_no_holder _ tok ?_
      intro x hx
      rcases List.mem_map.mp hx with ⟨y, hy, hfy⟩
      by_cases hyid : y.id = u.id
      · have hx2 : x = { u with is_verified := true, verification_token := none } := by
          rw [← hfy]; simp [hyid]
        simp [hx2]
      · have hxy : x = y := by rw [← hfy]; simp [hyid]
        rw [hxy]
        intro hyt
        exact hyid (huniq y hy u hmem hyt htok)
  · exact verify_email_no_holder db tok

/-- C5 witness: after user 1 consumes token `"tok123"` (yielding the
verified store), presenting `"tok123"` again is rejected with the 400 error
and the store is unchanged. -/
theorem c5_verification_token_single_use_witness :
    verify_email c5_db1 "tok123" = (c5_db1, Except.error invalidVerification) :=
  (c5_verification_token_single_use c5_db0 "tok123" (by decide)).1 c5_db1
    "Email verified successfully" rfl

end ContactsApp
